import Mathlib

/-!
Verification of the multi-scheme authentication/authorization middleware of the
Asset-Manager backend.  The repository ships two revisions of the middleware:
`src/middleware/auth.js` (imported by every route file) and the unnamed revision
`src/unnamed/part_014`.  Both are embedded below; definitions suffixed `Mw`
model `src/middleware/auth.js`, definitions suffixed `14` model
`src/unnamed/part_014`.  External effects (the Firebase Admin verification
call, the Mongo user store, the HMAC/RSA signature checks performed by the
`jsonwebtoken` library, and the audit-log write) are supplied as oracle fields
of an `Env` record; everything the JavaScript computes itself (token
classification, base64 decoding, JSON parsing, control flow, error routing)
is computed by the embedding.
-/

namespace AssetAuth

/-! ## JavaScript string primitives -/

/-- Does the character list `l` start with the character list `pat`?
Used to model substring search the way `String.prototype.replace` and
`String.prototype.includes` locate a plain-string pattern. -/
def listStartsWith (l pat : List Char) : Bool :=
  l.take pat.length == pat

/-- `containsSub pat l` is true iff `pat` occurs as a contiguous sublist of
`l` (JavaScript `String.prototype.includes`). -/
def containsSub (pat : List Char) : List Char → Bool
  | [] => pat.isEmpty
  | c :: r => listStartsWith (c :: r) pat || containsSub pat r

/-- JavaScript `s.includes(sub)` for plain strings. -/
def strIncludes (s sub : String) : Bool :=
  containsSub sub.data s.data

/-- Replace the first occurrence of `pat` (as a plain string, per JavaScript
`String.prototype.replace` with a string pattern: only the first occurrence is
replaced, and the string is returned unchanged when the pattern is absent). -/
def replFirstAux (pat repl : List Char) : List Char → List Char
  | [] => if pat.isEmpty then repl else []
  | c :: r =>
    if listStartsWith (c :: r) pat then repl ++ (c :: r).drop pat.length
    else c :: replFirstAux pat repl r

/-- JavaScript `s.replace(pat, repl)` with a plain-string pattern. -/
def jsReplaceFirst (s pat repl : String) : String :=
  ⟨replFirstAux pat.data repl.data s.data⟩

/-- Split on a single-character separator, JavaScript
`String.prototype.split` semantics: `''.split(c) = ['']`, separators at the
ends produce empty segments. -/
def splitChAux (sep : Char) : List Char → List Char → List (List Char)
  | [], acc => [acc.reverse]
  | c :: r, acc =>
    if c = sep then acc.reverse :: splitChAux sep r []
    else splitChAux sep r (c :: acc)

/-- JavaScript `s.split(sep)` for a one-character separator. -/
def jsSplitCh (sep : Char) (s : String) : List String :=
  (splitChAux sep s.data []).map (fun l => ⟨l⟩)

/-- JavaScript `s.startsWith(pat)`. -/
def strStartsWith (s pat : String) : Bool :=
  listStartsWith s.data pat.data

/-- JavaScript `Array.prototype.join`. -/
def jsJoin (sep : String) : List String → String
  | [] => ""
  | [s] => s
  | s :: r => s ++ sep ++ jsJoin sep r

/-! ## Node `Buffer.from(s, 'base64')` — lenient base64 decoding

Node's base64 decoder never throws: characters outside the (standard or
url-safe) alphabet, including `=` padding, are skipped, and a trailing group
of fewer than four alphabet characters yields the bytes it determines.  The
resulting bytes are rendered one byte per character (the Latin-1 view, which
agrees with Node's UTF-8 `toString` on all ASCII content; every token in this
development is ASCII). -/

/-- Value of one base64 alphabet character (standard and url-safe). -/
def b64Val (c : Char) : Option Nat :=
  if 'A' ≤ c ∧ c ≤ 'Z' then some (c.toNat - 65)
  else if 'a' ≤ c ∧ c ≤ 'z' then some (c.toNat - 97 + 26)
  else if '0' ≤ c ∧ c ≤ '9' then some (c.toNat - 48 + 52)
  else if c = '+' ∨ c = '-' then some 62
  else if c = '/' ∨ c = '_' then some 63
  else none

/-- Decode a stream of 6-bit values into bytes, four values to three bytes,
with Node's handling of a short trailing group. -/
def b64Bytes : List Nat → List Nat
  | a :: b :: c :: d :: rest =>
    (a * 4 + b / 16) :: ((b % 16) * 16 + c / 4) :: ((c % 4) * 64 + d) :: b64Bytes rest
  | [a, b] => [a * 4 + b / 16]
  | [a, b, c] => [a * 4 + b / 16, (b % 16) * 16 + c / 4]
  | _ => []

/-- `Buffer.from(s, 'base64').toString()` (Latin-1 view of the bytes). -/
def b64DecodeStr (s : String) : String :=
  ⟨(b64Bytes (s.data.filterMap b64Val)).map Char.ofNat⟩

/-! ## `JSON.parse`

A recursive-descent JSON parser.  Numeric literals are restricted to integers
(the only numeric form appearing in JWT claims); objects keep every key/value
pair in order, and field lookup takes the last occurrence, as `JSON.parse`
does for duplicate keys. -/

inductive Json where
  | null
  | bool (b : Bool)
  | num (n : Int)
  | str (s : String)
  | arr (xs : List Json)
  | obj (fields : List (String × Json))

/-- JSON whitespace. -/
def isJsonWs (c : Char) : Bool :=
  c = ' ' ∨ c = '\t' ∨ c = '\n' ∨ c = '\r'

def skipWs : List Char → List Char
  | [] => []
  | c :: r => if isJsonWs c then skipWs r else c :: r

def isDigitCh (c : Char) : Bool := '0' ≤ c ∧ c ≤ '9'

/-- Parse a nonempty run of decimal digits. -/
def parseDigits (l : List Char) : Option (Nat × List Char) :=
  let ds := l.takeWhile isDigitCh
  if ds.isEmpty then none
  else some (ds.foldl (fun a c => a * 10 + (c.toNat - 48)) 0, l.drop ds.length)

/-- Parse an (integer) JSON numeric literal. -/
def parseNumber (l : List Char) : Option (Json × List Char) :=
  match l with
  | '-' :: r => (parseDigits r).map (fun p => (Json.num (-(p.1 : Int)), p.2))
  | _ => (parseDigits l).map (fun p => (Json.num (p.1 : Int), p.2))

/-- Hexadecimal digit value. -/
def hexVal (c : Char) : Option Nat :=
  if '0' ≤ c ∧ c ≤ '9' then some (c.toNat - 48)
  else if 'a' ≤ c ∧ c ≤ 'f' then some (c.toNat - 97 + 10)
  else if 'A' ≤ c ∧ c ≤ 'F' then some (c.toNat - 65 + 10)
  else none

/-- Single-character JSON escapes. -/
def escChar : Char → Option Char
  | '"' => some '"'
  | '\\' => some '\\'
  | '/' => some '/'
  | 'b' => some (Char.ofNat 8)
  | 'f' => some (Char.ofNat 12)
  | 'n' => some '\n'
  | 'r' => some '\r'
  | 't' => some '\t'
  | _ => none

/-- Scan the body of a JSON string literal (after the opening quote), returning
its characters and the rest of the input.  Raw control characters are rejected,
as `JSON.parse` rejects them. -/
def scanStr : List Char → Option (List Char × List Char)
  | [] => none
  | '"' :: rest => some ([], rest)
  | '\\' :: 'u' :: a :: b :: c :: d :: rest => do
    let ha ← hexVal a
    let hb ← hexVal b
    let hc ← hexVal c
    let hd ← hexVal d
    let (s, r) ← scanStr rest
    some (Char.ofNat (((ha * 16 + hb) * 16 + hc) * 16 + hd) :: s, r)
  | '\\' :: e :: rest => do
    let c ← escChar e
    let (s, r) ← scanStr rest
    some (c :: s, r)
  | c :: rest =>
    if c.toNat < 32 then none
    else do
      let (s, r) ← scanStr rest
      some (c :: s, r)

mutual

/-- Parse one JSON value (fuelled recursive descent). -/
def parseVal : Nat → List Char → Option (Json × List Char)
  | 0, _ => none
  | f + 1, input =>
    match skipWs input with
    | 'n' :: 'u' :: 'l' :: 'l' :: r => some (Json.null, r)
    | 't' :: 'r' :: 'u' :: 'e' :: r => some (Json.bool true, r)
    | 'f' :: 'a' :: 'l' :: 's' :: 'e' :: r => some (Json.bool false, r)
    | '"' :: r => (scanStr r).map (fun p => (Json.str ⟨p.1⟩, p.2))
    | '[' :: r =>
      (match skipWs r with
       | ']' :: r2 => some (Json.arr [], r2)
       | r2 => (parseItems f r2).map (fun p => (Json.arr p.1, p.2)))
    | '{' :: r =>
      (match skipWs r with
       | '}' :: r2 => some (Json.obj [], r2)
       | r2 => (parseFields f r2).map (fun p => (Json.obj p.1, p.2)))
    | l => parseNumber l

/-- Parse the comma-separated items of a JSON array (after `[`). -/
def parseItems : Nat → List Char → Option (List Json × List Char)
  | 0, _ => none
  | f + 1, input => do
    let (v, r) ← parseVal f input
    match skipWs r with
    | ',' :: r2 => do
      let (xs, r3) ← parseItems f r2
      some (v :: xs, r3)
    | ']' :: r2 => some ([v], r2)
    | _ => none

/-- Parse the comma-separated fields of a JSON object (after `{`). -/
def parseFields : Nat → List Char → Option (List (String × Json) × List Char)
  | 0, _ => none
  | f + 1, input =>
    match skipWs input with
    | '"' :: r => do
      let (k, r2) ← scanStr r
      match skipWs r2 with
      | ':' :: r3 => do
        let (v, r4) ← parseVal f r3
        match skipWs r4 with
        | ',' :: r5 => do
          let (fs, r6) ← parseFields f r5
          some ((⟨k⟩, v) :: fs, r6)
        | '}' :: r5 => some ([(⟨k⟩, v)], r5)
        | _ => none
      | _ => none
    | _ => none

end

/-- `JSON.parse(s)`: succeeds iff the whole input is one JSON value. -/
def jsonParse (s : String) : Option Json :=
  match parseVal (2 * s.data.length + 2) s.data with
  | some (v, rest) => if (skipWs rest).isEmpty then some v else none
  | none => none

/-- Field access on a parsed JSON object; the last occurrence of a duplicated
key wins, as in `JSON.parse`. -/
def lookupLast (k : String) : List (String × Json) → Option Json
  | [] => none
  | (k', v) :: rest =>
    match lookupLast k rest with
    | some w => some w
    | none => if k' = k then some v else none

/-- JavaScript property access `payload.k` on a decoded token body. -/
def jsonGet (j : Json) (k : String) : Option Json :=
  match j with
  | Json.obj fs => lookupLast k fs
  | _ => none

/-- JavaScript truthiness of a possibly-absent property value. -/
def jsTruthy : Option Json → Bool
  | none => false
  | some Json.null => false
  | some (Json.bool b) => b
  | some (Json.num n) => n ≠ 0
  | some (Json.str s) => s ≠ ""
  | some (Json.arr _) => true
  | some (Json.obj _) => true

/-! ## Token classification (`isFirebaseToken` in both revisions)

Both revisions split the bearer string on `.`, require exactly three
segments, base64-decode and JSON-parse segments 0 and 1, and test structural
marks of a Firebase ID token; any decode/parse failure is caught and yields
`false`.  The `part_014` revision additionally requires `auth_time`, `exp`
and `iat` to be present. -/

/-- Decode a three-segment token into its (header, payload) JSON values;
`none` models the classifier's caught decode/parse exceptions. -/
def decodeSegs (token : String) : Option (Json × Json) :=
  match jsSplitCh '.' token with
  | [p0, p1, _] => do
    let h ← jsonParse (b64DecodeStr p0)
    let p ← jsonParse (b64DecodeStr p1)
    some (h, p)
  | _ => none

/-- `header.alg === 'RS256'`. -/
def algIsRS256 (h : Json) : Bool :=
  match jsonGet h "alg" with
  | some (Json.str a) => a = "RS256"
  | _ => false

/-- `payload.iss && payload.iss.includes('securetoken.google.com')` (a
non-string `iss` makes the real code throw inside the `try`, hence `false`). -/
def issFromGoogle (p : Json) : Bool :=
  match jsonGet p "iss" with
  | some (Json.str s) => strIncludes s "securetoken.google.com"
  | _ => false

/-- `isFirebaseToken` of `src/unnamed/part_014`. -/
def isFirebaseToken14 (token : String) : Bool :=
  match decodeSegs token with
  | none => false
  | some (h, p) =>
    algIsRS256 h && issFromGoogle p && jsTruthy (jsonGet p "aud") &&
    jsTruthy (jsonGet p "firebase") && jsTruthy (jsonGet p "auth_time") &&
    jsTruthy (jsonGet p "exp") && jsTruthy (jsonGet p "iat")

/-- `isFirebaseToken` of `src/middleware/auth.js` (no `auth_time`/`exp`/`iat`
requirements). -/
def isFirebaseTokenMw (token : String) : Bool :=
  match decodeSegs token with
  | none => false
  | some (h, p) =>
    algIsRS256 h && issFromGoogle p && jsTruthy (jsonGet p "aud") &&
    jsTruthy (jsonGet p "firebase")

/-! ## Data model -/

/-- A row of the Mongo `User` collection (`src/models/User.js`), as the
middleware reads and writes it. -/
structure User where
  mongoId : String
  firebaseUID : String
  email : Option String
  name : String
  role : String
  permissions : List String
  isActive : Bool
  passwordChangedAt : Option Int := none
  lastLogin : Option Int := none
deriving Repr, DecidableEq

/-- A JavaScript error as the middleware's `catch` blocks observe it. -/
structure JsError where
  name : String
  code : String
  message : String
deriving Repr, DecidableEq

/-- The decoded token returned by `admin.auth().verifyIdToken`. -/
structure FirebaseDecoded where
  uid : String
  email : Option String := none
  name : Option String := none
  role : Option String := none
deriving Repr, DecidableEq

/-- JavaScript `v || dflt` for an optional string property. -/
def jsOrStr (v : Option String) (dflt : String) : String :=
  match v with
  | some s => if s = "" then dflt else s
  | none => dflt

/-- `decodedToken.email?.split('@')[0]` (empty when the email is absent). -/
def emailLocalName : Option String → String
  | some e => (jsSplitCh '@' e).headD ""
  | none => ""

/-- `decodedToken.name || decodedToken.email?.split('@')[0] || 'Unknown User'`. -/
def displayNameOf (dec : FirebaseDecoded) : String :=
  let n1 := jsOrStr dec.name ""
  if n1 ≠ "" then n1
  else
    let n2 := emailLocalName dec.email
    if n2 ≠ "" then n2 else "Unknown User"

/-- The user document built by `createUserFromFirebaseToken` in `part_014`:
note `role: decodedToken.role || 'user'`. -/
def newUserDoc14 (freshId : String) (dec : FirebaseDecoded) : User :=
  { mongoId := freshId
    firebaseUID := dec.uid
    email := dec.email
    name := displayNameOf dec
    role := jsOrStr dec.role "user"
    permissions := ["read"]
    isActive := true }

/-- The user document built inline in `src/middleware/auth.js`:
`role: 'user'` unconditionally. -/
def newUserDocMw (freshId : String) (dec : FirebaseDecoded) : User :=
  { mongoId := freshId
    firebaseUID := dec.uid
    email := dec.email
    name := displayNameOf dec
    role := "user"
    permissions := ["read"]
    isActive := true }

/-! ## Environment: the oracles for external effects -/

/-- Deterministic record of the outcomes of all external calls a single
request can make.  `sigOk token secret alg` is the cryptographic signature
check performed inside `jsonwebtoken`; `insertUserResult`/`saveUserResult`
give the Mongo write outcomes (`some e` = the write threw `e`);
`findByFirebaseUID`/`findById` return `none` for "not found" (the store never
throws on reads, per the data-access contract). -/
structure Env where
  nodeEnv : String
  firebaseAvailable : Bool
  now : Int
  freshId : String
  verifyIdToken : String → Except JsError FirebaseDecoded
  findByFirebaseUID : String → Option User
  insertUserResult : User → Option JsError
  saveUserResult : User → Option JsError
  jwtSecret : Option String
  sigOk : String → String → String → Bool
  findById : Option Json → Option User

/-- The inbound request, reduced to the only field the middleware reads. -/
structure Request where
  authHeader : Option String
deriving Repr, DecidableEq

/-- Outcome of the `authenticate` middleware: an HTTP error response, or
`next()` with the resolved user, auth scheme tag and raw token attached. -/
inductive AuthResult where
  | response (status : Nat) (message : String)
  | success (user : User) (authType : String) (token : String)
deriving Repr, DecidableEq

/-- Observable calls to the two verifiers: how often
`admin.auth().verifyIdToken` ran, how often `jwt.verify` ran, and which
signature algorithms were actually checked cryptographically. -/
structure Trace where
  fbCalls : Nat := 0
  jwtCalls : Nat := 0
  sigAttempts : List String := []
deriving Repr, DecidableEq

/-! ## `jsonwebtoken`'s `jwt.verify`

`jwt.verify` first checks the three-segment shape (`jwt malformed`), then
decodes via `jws` (whose regex admits only base64url characters, yielding
`invalid token` otherwise, likewise on a JSON parse failure), then checks the
algorithm against the `algorithms` option when one is given, and only then
consults the cryptographic signature check; an `exp` claim in the past raises
`TokenExpiredError`. -/

def isB64UrlChar (c : Char) : Bool :=
  ('A' ≤ c ∧ c ≤ 'Z') ∨ ('a' ≤ c ∧ c ≤ 'z') ∨ ('0' ≤ c ∧ c ≤ '9') ∨ c = '-' ∨ c = '_'

/-- The `jws` serialization regex: three dot-separated base64url segments,
the first two nonempty. -/
def jwsShapeOk (token : String) : Bool :=
  match jsSplitCh '.' token with
  | [p0, p1, p2] =>
    !p0.data.isEmpty && !p1.data.isEmpty && p0.data.all isB64UrlChar &&
    p1.data.all isB64UrlChar && p2.data.all isB64UrlChar
  | _ => false

def mkJwtErr (n m : String) : JsError := { name := n, code := "", message := m }

/-- Signature check and expiry check, after the structural stage passed. -/
def verifySigThen (env : Env) (token secret alg : String) (p : Json) :
    Except JsError Json × List String :=
  if env.sigOk token secret alg then
    match jsonGet p "exp" with
    | some (Json.num e) =>
      if e ≤ env.now then (Except.error (mkJwtErr "TokenExpiredError" "jwt expired"), [alg])
      else (Except.ok p, [alg])
    | _ => (Except.ok p, [alg])
  else (Except.error (mkJwtErr "JsonWebTokenError" "invalid signature"), [alg])

/-- One `jwt.verify(token, secret, opts)` call.  `allowed = some algs` models
an explicit `algorithms` option (as `part_014` passes); `allowed = none`
models the default call in `auth.js`, which verifies with the token header's
own algorithm.  The second component lists the algorithms whose signature was
cryptographically checked. -/
def jwtVerifyModel (env : Env) (token secret : String) (allowed : Option (List String)) :
    Except JsError Json × List String :=
  if (jsSplitCh '.' token).length ≠ 3 then
    (Except.error (mkJwtErr "JsonWebTokenError" "jwt malformed"), [])
  else if !jwsShapeOk token then
    (Except.error (mkJwtErr "JsonWebTokenError" "invalid token"), [])
  else
    match decodeSegs token with
    | none => (Except.error (mkJwtErr "JsonWebTokenError" "invalid token"), [])
    | some (h, p) =>
      match jsonGet h "alg" with
      | some (Json.str alg) =>
        match allowed with
        | some algs =>
          if alg ∈ algs then verifySigThen env token secret alg p
          else (Except.error (mkJwtErr "JsonWebTokenError" "invalid algorithm"), [])
        | none => verifySigThen env token secret alg p
      | _ => (Except.error (mkJwtErr "JsonWebTokenError" "invalid algorithm"), [])

/-- The `for (const algorithm of algorithms)` loop of `part_014`: one
`jwt.verify` call per algorithm, `break` on the first success, each failure
swallowed by the inner `catch`.  Returns the decoded payload (if any), the
number of `jwt.verify` calls, and the signature attempts. -/
def tryAlgorithms (env : Env) (token secret : String) :
    List String → Option Json × Nat × List String
  | [] => (none, 0, [])
  | alg :: rest =>
    match jwtVerifyModel env token secret (some [alg]) with
    | (Except.ok p, sa) => (some p, 1, sa)
    | (Except.error _, sa) =>
      let (r, n, sas) := tryAlgorithms env token secret rest
      (r, n + 1, sa ++ sas)

/-! ## The JWT branch of each revision -/

/-- `user.passwordChangedAt && decoded.iat <
Math.floor(user.passwordChangedAt.getTime() / 1000)` — a missing or
non-numeric `iat` makes the comparison false (NaN semantics). -/
def staleToken (u : User) (p : Json) : Bool :=
  match u.passwordChangedAt with
  | none => false
  | some tms =>
    match jsonGet p "iat" with
    | some (Json.num iat) => iat < Int.fdiv tms 1000
    | _ => false

/-- `decoded.id || decoded.sub || decoded.userId`. -/
def firstTruthyField (p : Json) : List String → Option Json
  | [] => none
  | k :: ks => if jsTruthy (jsonGet p k) then jsonGet p k else firstTruthyField p ks

inductive JwtOut where
  | resp (status : Nat) (message : String)
  | ok (u : User)
deriving Repr, DecidableEq

/-- Method 2 of `part_014` (lines 296-372): missing secret rejects 401; the
three algorithms are cycled; the loop's failure surfaces as a plain `Error`,
which the catch maps to `Invalid token`; the subject is the first truthy of
`id`/`sub`/`userId`; a missing user or stale credentials reject 401. -/
def jwtBranch14 (env : Env) (token : String) : JwtOut × Trace :=
  match env.jwtSecret with
  | none => (JwtOut.resp 401 "JWT authentication not configured", {})
  | some secret =>
    let (dec?, calls, sas) := tryAlgorithms env token secret ["HS256", "HS512", "RS256"]
    let tr : Trace := { jwtCalls := calls, sigAttempts := sas }
    match dec? with
    | none => (JwtOut.resp 401 "Invalid token", tr)
    | some p =>
      match env.findById (firstTruthyField p ["id", "sub", "userId"]) with
      | none => (JwtOut.resp 401 "Invalid token - user not found", tr)
      | some u =>
        if staleToken u p then (JwtOut.resp 401 "Password changed. Please log in again.", tr)
        else (JwtOut.ok u, tr)

/-- Method 3 of `src/middleware/auth.js` (lines 236-278): a single
`jwt.verify(token, secret)` call with no `algorithms` option; the subject is
`decoded.id` only; any thrown error rejects 401 `Invalid token`. -/
def jwtBranchMw (env : Env) (token : String) : JwtOut × Trace :=
  match env.jwtSecret with
  | none => (JwtOut.resp 401 "JWT authentication not configured", {})
  | some secret =>
    match jwtVerifyModel env token secret none with
    | (Except.error _, sa) => (JwtOut.resp 401 "Invalid token", { jwtCalls := 1, sigAttempts := sa })
    | (Except.ok p, sa) =>
      let tr : Trace := { jwtCalls := 1, sigAttempts := sa }
      match env.findById (jsonGet p "id") with
      | none => (JwtOut.resp 401 "Invalid token - user not found", tr)
      | some u =>
        if staleToken u p then (JwtOut.resp 401 "Password changed. Please log in again.", tr)
        else (JwtOut.ok u, tr)

/-! ## The Firebase branch of each revision -/

/-- `user.lastLogin = new Date()` just before `user.save()`. -/
def touchLogin (now : Int) (u : User) : User := { u with lastLogin := some now }

inductive M1Out where
  | resp (status : Nat) (message : String)
  | fallthrough
  | ok (u : User) (uid : String)
deriving Repr, DecidableEq

/-- The `catch (firebaseError)` of `part_014` (lines 274-293): signature or
argument errors reject 401 immediately; every other failure clears
`tokenProcessed` so the JWT branch runs. -/
def fbCatch14 (e : JsError) : M1Out :=
  if e.code = "auth/argument-error" || strIncludes e.message "invalid signature" then
    M1Out.resp 401 "Invalid Firebase token - signature verification failed"
  else M1Out.fallthrough

/-- Method 1 of `part_014` (lines 247-294): verify, find-or-create the user,
update `lastLogin`; any throw in the `try` goes to `fbCatch14`. -/
def firebaseBranch14 (env : Env) (token : String) : M1Out :=
  match env.verifyIdToken token with
  | Except.error e => fbCatch14 e
  | Except.ok dec =>
    match env.findByFirebaseUID dec.uid with
    | some u =>
      match env.saveUserResult (touchLogin env.now u) with
      | some e => fbCatch14 e
      | none => M1Out.ok (touchLogin env.now u) dec.uid
    | none =>
      match env.insertUserResult (newUserDoc14 env.freshId dec) with
      | some e => fbCatch14 e
      | none =>
        match env.saveUserResult (touchLogin env.now (newUserDoc14 env.freshId dec)) with
        | some e => fbCatch14 e
        | none => M1Out.ok (touchLogin env.now (newUserDoc14 env.freshId dec)) dec.uid

/-- Method 1 / Method 2 body of `src/middleware/auth.js`: verify,
find-or-create (`role: 'user'`), update `lastLogin`; any throw in the `try`
rejects 401 with the branch's catch message. -/
def firebaseBranchMw (env : Env) (token catchMsg : String) : Sum (Nat × String) User :=
  match env.verifyIdToken token with
  | Except.error _ => Sum.inl (401, catchMsg)
  | Except.ok dec =>
    match env.findByFirebaseUID dec.uid with
    | some u =>
      match env.saveUserResult (touchLogin env.now u) with
      | some _ => Sum.inl (401, catchMsg)
      | none => Sum.inr (touchLogin env.now u)
    | none =>
      match env.insertUserResult (newUserDocMw env.freshId dec) with
      | some _ => Sum.inl (401, catchMsg)
      | none =>
        match env.saveUserResult (touchLogin env.now (newUserDocMw env.freshId dec)) with
        | some _ => Sum.inl (401, catchMsg)
        | none => Sum.inr (touchLogin env.now (newUserDocMw env.freshId dec))

/-! ## The assembled `authenticate` middleware of each revision -/

/-- What a revision's token processing produced before the shared final
validation: an HTTP rejection, the development demo short-circuit (which
returns `next()` immediately, skipping the active check and the audit write),
or a resolved main-path user with its auth scheme tag. -/
inductive CoreOut where
  | resp (status : Nat) (message : String)
  | demo (u : User) (token : String)
  | main (u : User) (authType : String) (token : String)
deriving Repr, DecidableEq

/-- The demo user object of `part_014` (lines 222-233). -/
def demoUser (now : Int) (token : String) : User :=
  { mongoId := "demo-user-id"
    firebaseUID := "demo-firebase-uid"
    email := some "demo@example.com"
    name := "Demo User"
    role := if token = "demo-admin-token" then "admin" else "user"
    permissions :=
      if token = "demo-admin-token" then
        ["read", "create", "update", "delete", "assign", "reports"]
      else ["read"]
    isActive := true
    lastLogin := some now }

def jwtToCore : JwtOut → String → CoreOut
  | JwtOut.resp s m, _ => CoreOut.resp s m
  | JwtOut.ok u, token => CoreOut.main u "jwt" token

/-- Token processing of `part_014`'s `authenticate`: demo short-circuit, then
the Firebase branch when available and structurally classified, with
fall-through to the JWT branch on a non-signature Firebase failure. -/
def authCore14 (env : Env) (token : String) : CoreOut × Trace :=
  if env.nodeEnv = "development" ∧ (token = "demo-admin-token" ∨ token = "demo-user-token") then
    (CoreOut.demo (demoUser env.now token) token, {})
  else if env.firebaseAvailable ∧ isFirebaseToken14 token = true then
    match firebaseBranch14 env token with
    | M1Out.resp s m => (CoreOut.resp s m, { fbCalls := 1 })
    | M1Out.ok u _ => (CoreOut.main u "firebase" token, { fbCalls := 1 })
    | M1Out.fallthrough =>
      let (r, tr) := jwtBranch14 env token
      (jwtToCore r token, { tr with fbCalls := 1 })
  else
    let (r, tr) := jwtBranch14 env token
    (jwtToCore r token, tr)

/-- Token processing of `src/middleware/auth.js`'s `authenticate`: Firebase
branch when available and classified (its catch always rejects 401), then the
legacy `firebase_` prefix branch, else the JWT branch. -/
def authCoreMw (env : Env) (token : String) : CoreOut × Trace :=
  if env.firebaseAvailable ∧ isFirebaseTokenMw token = true then
    match firebaseBranchMw env token "Invalid Firebase token" with
    | Sum.inl (s, m) => (CoreOut.resp s m, { fbCalls := 1 })
    | Sum.inr u => (CoreOut.main u "firebase" token, { fbCalls := 1 })
  else if strStartsWith token "firebase_" then
    if !env.firebaseAvailable then
      (CoreOut.resp 503 "Firebase authentication is not configured", {})
    else
      match firebaseBranchMw env (jsReplaceFirst token "firebase_" "") "Invalid token" with
      | Sum.inl (s, m) => (CoreOut.resp s m, { fbCalls := 1 })
      | Sum.inr u => (CoreOut.main u "firebase_prefixed" token, { fbCalls := 1 })
  else
    let (r, tr) := jwtBranchMw env token
    (jwtToCore r token, tr)

/-- The final validation shared by both revisions: inactive users reject 403;
the audit write is attempted and its failure swallowed (`catch (auditError)`),
after which `next()` runs either way. -/
def finishAndAudit (audit : Except String Unit) (u : User) (authType token : String) :
    AuthResult :=
  if u.isActive = false then AuthResult.response 403 "Account has been deactivated"
  else
    match audit with
    | Except.ok _ => AuthResult.success u authType token
    | Except.error _ => AuthResult.success u authType token

/-- `part_014` `authenticate` applied to an already-extracted token. -/
def authTok14 (env : Env) (audit : Except String Unit) (token : String) :
    AuthResult × Trace :=
  match authCore14 env token with
  | (CoreOut.resp s m, tr) => (AuthResult.response s m, tr)
  | (CoreOut.demo u tok, tr) => (AuthResult.success u "demo" tok, tr)
  | (CoreOut.main u ty tok, tr) => (finishAndAudit audit u ty tok, tr)

/-- `src/middleware/auth.js` `authenticate` applied to an already-extracted
token. -/
def authTokMw (env : Env) (audit : Except String Unit) (token : String) :
    AuthResult × Trace :=
  match authCoreMw env token with
  | (CoreOut.resp s m, tr) => (AuthResult.response s m, tr)
  | (CoreOut.demo u tok, tr) => (AuthResult.success u "demo" tok, tr)
  | (CoreOut.main u ty tok, tr) => (finishAndAudit audit u ty tok, tr)

/-- `authenticate` of `src/unnamed/part_014`: missing header rejects 401, the
token is `authHeader.replace('Bearer ', '')`. -/
def authenticate14 (env : Env) (audit : Except String Unit) (req : Request) :
    AuthResult × Trace :=
  match req.authHeader with
  | none => (AuthResult.response 401 "Authentication required - No Authorization header", {})
  | some h => authTok14 env audit (jsReplaceFirst h "Bearer " "")

/-- `authenticate` of `src/middleware/auth.js`. -/
def authenticateMw (env : Env) (audit : Except String Unit) (req : Request) :
    AuthResult × Trace :=
  match req.authHeader with
  | none => (AuthResult.response 401 "Authentication required - No Authorization header", {})
  | some h => authTokMw env audit (jsReplaceFirst h "Bearer " "")

/-! ## Authorization guards (identical in both revisions) -/

inductive GuardOut where
  | next
  | resp (status : Nat) (message : String)
deriving Repr, DecidableEq

/-- `requirePermission(...permissions)`: admins pass unconditionally;
otherwise every required permission must be in `user.permissions`. -/
def requirePermission (required : List String) (reqUser : Option User) : GuardOut :=
  match reqUser with
  | none => GuardOut.resp 401 "Authentication required for permission check"
  | some u =>
    if u.role = "admin" then GuardOut.next
    else if required.all (fun p => u.permissions.contains p) then GuardOut.next
    else
      GuardOut.resp 403
        ("Insufficient permissions. Required: " ++ jsJoin ", " required ++
          ". User has: " ++ jsJoin ", " u.permissions)

/-- `authorize(...roles)`: passes iff the user's role is in the allowed set. -/
def authorize (roles : List String) (reqUser : Option User) : GuardOut :=
  match reqUser with
  | none => GuardOut.resp 401 "Authentication required for authorization check"
  | some u =>
    if roles.contains u.role then GuardOut.next
    else
      GuardOut.resp 403
        ("Access denied. User role '" ++ u.role ++ "' is not authorized. Required: " ++
          jsJoin " or " roles)

/-! ## The route pipeline: authenticate, then guards, then the handler -/

inductive Guard where
  | roleGuard (roles : List String)
  | permGuard (required : List String)
deriving Repr, DecidableEq

def runGuard : Guard → Option User → GuardOut
  | Guard.roleGuard rs, u => authorize rs u
  | Guard.permGuard ps, u => requirePermission ps u

inductive PipeOut where
  | resp (status : Nat) (message : String)
  | handler (u : User)
deriving Repr, DecidableEq

def runGuards (u : User) : List Guard → PipeOut
  | [] => PipeOut.handler u
  | g :: gs =>
    match runGuard g (some u) with
    | GuardOut.next => runGuards u gs
    | GuardOut.resp s m => PipeOut.resp s m

/-- Express route `router.verb(path, authenticate, ...guards, handler)` with
the `part_014` middleware: a middleware that responds ends the chain. -/
def pipeline14 (env : Env) (audit : Except String Unit) (req : Request)
    (guards : List Guard) : PipeOut :=
  match (authenticate14 env audit req).1 with
  | AuthResult.response s m => PipeOut.resp s m
  | AuthResult.success u _ _ => runGuards u guards

/-- The same pipeline with the `src/middleware/auth.js` middleware. -/
def pipelineMw (env : Env) (audit : Except String Unit) (req : Request)
    (guards : List Guard) : PipeOut :=
  match (authenticateMw env audit req).1 with
  | AuthResult.response s m => PipeOut.resp s m
  | AuthResult.success u _ _ => runGuards u guards

/-! ## Concrete fixtures used by counterexamples and witnesses

`tokenFB` decodes to header `{"alg":"RS256"}` and payload
`{"iss":"https://securetoken.google.com/p1","aud":"p1","firebase":{},
"auth_time":1,"exp":2,"iat":1,"sub":"u1"}`; `tokenHS` to header
`{"alg":"HS256"}` and payload `{"id":"u1","iat":1,"exp":2}`; `tokenHS384` /
`tokenHS512` carry headers `{"alg":"HS384"}` / `{"alg":"HS512"}` and payload
`{"id":"u1","iat":1}`. -/

def tokenFB : String :=
  "eyJhbGciOiJSUzI1NiJ9.eyJpc3MiOiJodHRwczovL3NlY3VyZXRva2VuLmdvb2dsZS5jb20vcDEiLCJhdWQiOiJwMSIsImZpcmViYXNlIjp7fSwiYXV0aF90aW1lIjoxLCJleHAiOjIsImlhdCI6MSwic3ViIjoidTEifQ.sg"

def tokenHS : String := "eyJhbGciOiJIUzI1NiJ9.eyJpZCI6InUxIiwiaWF0IjoxLCJleHAiOjJ9.sg"

def tokenHS384 : String := "eyJhbGciOiJIUzM4NCJ9.eyJpZCI6InUxIiwiaWF0IjoxfQ.sg"

def tokenHS512 : String := "eyJhbGciOiJIUzUxMiJ9.eyJpZCI6InUxIiwiaWF0IjoxfQ.sg"

/-- An ordinary active stored user. -/
def userA : User :=
  { mongoId := "u1", firebaseUID := "f1", email := some "a@b.c", name := "A",
    role := "user", permissions := ["read"], isActive := true }

/-- A deactivated stored user with the strongest role and permissions. -/
def userInactiveAdmin : User :=
  { userA with
    role := "admin",
    permissions := ["read", "create", "update", "delete", "assign", "reports"],
    isActive := false }

/-- The decoded Firebase identity carrying a `role: "admin"` custom claim. -/
def decAdmin : FirebaseDecoded :=
  { uid := "fu1", email := some "al@b.c", name := some "Al", role := some "admin" }

/-- Store lookup used in the C6 scenario: `u1` resolves to `userA`. -/
def findUserU1 : Option Json → Option User
  | some (Json.str "u1") => some userA
  | _ => none

/-- The error `verifyIdToken` raises for an expired Firebase ID token. -/
def firebaseExpiredErr : JsError :=
  { name := "FirebaseAuthError", code := "auth/id-token-expired",
    message := "Firebase ID token has expired" }

/-- Baseline environment: Firebase configured but remote verification fails
with an expiry error; a JWT secret is configured; every signature check
fails; the user store is empty. -/
def envBase : Env :=
  { nodeEnv := "production", firebaseAvailable := true, now := 1000, freshId := "new1",
    verifyIdToken := fun _ => Except.error firebaseExpiredErr,
    findByFirebaseUID := fun _ => none,
    insertUserResult := fun _ => none,
    saveUserResult := fun _ => none,
    jwtSecret := some "sec",
    sigOk := fun _ _ _ => false,
    findById := fun _ => none }

/-- Remote verification succeeds with `decAdmin`; no stored user. -/
def envOkNew : Env := { envBase with verifyIdToken := fun _ => Except.ok decAdmin }

/-- The Mongo duplicate-key error a lost provisioning race produces. -/
def dupKeyErr : JsError :=
  { name := "MongoServerError", code := "11000",
    message := "E11000 duplicate key error collection: users index: firebaseUID_1" }

/-- As `envOkNew`, but the insert loses the uniqueness race. -/
def envDupKey : Env := { envOkNew with insertUserResult := fun _ => some dupKeyErr }

/-- No JWT secret configured, Firebase unavailable. -/
def envNoSecret : Env := { envBase with jwtSecret := none, firebaseAvailable := false }

/-- Firebase unavailable; the signature check accepts exactly the HS384
algorithm; `u1` resolves in the store. -/
def sigOkOnly (okAlg : String) : String → String → String → Bool :=
  fun _ _ alg => alg == okAlg

def envHS384 : Env :=
  { envBase with
    firebaseAvailable := false,
    sigOk := sigOkOnly "HS384",
    findById := findUserU1 }

/-- As `envHS384` but the accepted algorithm is HS512. -/
def envHS512 : Env :=
  { envHS384 with sigOk := sigOkOnly "HS512" }

/-- Development mode, no verifier configured to succeed. -/
def envDev : Env := { envBase with nodeEnv := "development" }

/-- Remote verification succeeds and the stored user is deactivated. -/
def envInactive : Env :=
  { envOkNew with findByFirebaseUID := fun _ => some userInactiveAdmin }

/-- The error `verifyIdToken` raises on a bad signature. -/
def sigFailErr : JsError :=
  { name := "FirebaseAuthError", code := "auth/internal-error",
    message := "Firebase ID token has invalid signature" }

/-- As `envBase` but remote verification fails with a signature error. -/
def envSigFail : Env :=
  { envBase with verifyIdToken := fun _ => Except.error sigFailErr }

/-! ## Shared lemmas -/

/-- The final audit write's outcome never changes the response computed by the
shared tail of `authenticate`. -/
theorem finishAndAudit_audit_eq (a b : Except String Unit) (u : User) (ty tok : String) :
    finishAndAudit a u ty tok = finishAndAudit b u ty tok := by
  unfold finishAndAudit
  by_cases h : u.isActive = false
  · simp [h]
  · simp [h]
    cases a <;> cases b <;> rfl

theorem authTok14_audit_eq (env : Env) (tok : String) (a b : Except String Unit) :
    authTok14 env a tok = authTok14 env b tok := by
  unfold authTok14
  rcases h : authCore14 env tok with ⟨co, tr⟩
  cases co <;> simp [finishAndAudit_audit_eq a b]

theorem authTokMw_audit_eq (env : Env) (tok : String) (a b : Except String Unit) :
    authTokMw env a tok = authTokMw env b tok := by
  unfold authTokMw
  rcases h : authCoreMw env tok with ⟨co, tr⟩
  cases co <;> simp [finishAndAudit_audit_eq a b]

/-- A string containing no occurrence of the pattern is returned unchanged by
`replace`. -/
theorem replFirstAux_eq_self (pat repl l : List Char) (h : containsSub pat l = false) :
    replFirstAux pat repl l = l := by
  induction l with
  | nil =>
    unfold containsSub at h
    unfold replFirstAux
    simp [h]
  | cons c r ih =>
    unfold containsSub at h
    rcases Bool.or_eq_false_iff.mp h with ⟨h1, h2⟩
    unfold replFirstAux
    simp [h1, ih h2]

theorem jsReplaceFirst_eq_self (s pat repl : String) (h : strIncludes s pat = false) :
    jsReplaceFirst s pat repl = s := by
  unfold jsReplaceFirst
  rw [replFirstAux_eq_self pat.data repl.data s.data h]

/-- Stripping the `Bearer ` scheme word from a well-formed header recovers the
token. -/
theorem stripBearerOk (t : String) : jsReplaceFirst ("Bearer " ++ t) "Bearer " "" = t := rfl

/-- A structurally Firebase-classified token is not a demo sentinel. -/
theorem isFb14_ne_demo (t : String) (h : isFirebaseToken14 t = true) :
    ¬(t = "demo-admin-token" ∨ t = "demo-user-token") := by
  rintro (rfl | rfl) <;> exact absurd h (by decide)

/-- A token whose structural decode fails makes every `jwt.verify` call fail
before any signature check. -/
theorem jwtVerifyModel_malformed (env : Env) (token secret : String)
    (allowed : Option (List String)) (h : decodeSegs token = none) :
    ∃ e, jwtVerifyModel env token secret allowed = (Except.error e, []) := by
  unfold jwtVerifyModel
  by_cases hl : (jsSplitCh '.' token).length ≠ 3
  · exact ⟨_, by rw [if_pos hl]⟩
  · rw [if_neg hl]
    cases hs : jwsShapeOk token <;> simp [hs, h]

/-- Under a failed structural decode, the algorithm loop makes one
`jwt.verify` call per algorithm, all failing, with no signature attempts. -/
theorem tryAlgorithms_malformed (env : Env) (token secret : String) (algs : List String)
    (h : decodeSegs token = none) :
    tryAlgorithms env token secret algs = (none, algs.length, []) := by
  induction algs with
  | nil => rfl
  | cons a rest ih =>
    obtain ⟨e, he⟩ := jwtVerifyModel_malformed env token secret (some [a]) h
    unfold tryAlgorithms
    rw [he]
    simp [ih]

/-- The shared tail yields `next()` only for an active user, and returns that
very user. -/
theorem finishAndAudit_success (audit : Except String Unit) (u : User) (ty tok : String)
    (u' : User) (ty' tok' : String)
    (h : finishAndAudit audit u ty tok = AuthResult.success u' ty' tok') :
    u' = u ∧ u.isActive = true := by
  unfold finishAndAudit at h
  by_cases ha : u.isActive = false
  · simp [ha] at h
  · simp [ha] at h ⊢
    cases audit <;> simp at h <;> exact h.1.symm

/-! ## Claim C7 — the permission guard -/

/-- C7: for every resolved principal, `requirePermission(required)` passes
unconditionally when the role is `admin` (whatever the permission list),
otherwise passes exactly when every required capability is among the user's
permissions, and every failure is a 403 response. -/
theorem c7_permission_guard (u : User) (required : List String) :
    (u.role = "admin" → requirePermission required (some u) = GuardOut.next) ∧
    (u.role ≠ "admin" →
      (requirePermission required (some u) = GuardOut.next ↔ ∀ p ∈ required, p ∈ u.permissions)) ∧
    (∀ s m, requirePermission required (some u) = GuardOut.resp s m → s = 403) := by
  refine ⟨fun h => by simp [requirePermission, h], fun h => ?_, fun s m h => ?_⟩
  · simp only [requirePermission]
    rw [if_neg h]
    by_cases hall : required.all (fun p => u.permissions.contains p) = true
    · rw [if_pos hall]
      have hmem : ∀ p ∈ required, p ∈ u.permissions := by
        intro p hp
        have := List.all_eq_true.mp hall p hp
        simpa using this
      exact ⟨fun _ => hmem, fun _ => rfl⟩
    · rw [if_neg hall]
      constructor
      · intro hx; cases hx
      · intro hmem
        exact absurd (List.all_eq_true.mpr (fun p hp => by simpa using hmem p hp)) hall
  · simp only [requirePermission] at h
    by_cases hadm : u.role = "admin"
    · rw [if_pos hadm] at h; cases h
    · rw [if_neg hadm] at h
      by_cases hall : required.all (fun p => u.permissions.contains p) = true
      · rw [if_pos hall] at h; cases h
      · rw [if_neg hall] at h
        cases h
        rfl

/-- Admin with an empty permission list. -/
def userAdminEmpty : User :=
  { mongoId := "u9", firebaseUID := "f9", email := some "x@y.z", name := "X",
    role := "admin", permissions := [], isActive := true }

/-- C7 witness: a `role=admin` principal with empty permissions passes
`requirePermission ["reports"]`, while `role=user, permissions={read}` is
rejected (and the rejection is a 403). -/
theorem c7_permission_guard_witness :
    requirePermission ["reports"] (some userAdminEmpty) = GuardOut.next ∧
    requirePermission ["reports"] (some userA) ≠ GuardOut.next ∧
    (∀ s m, requirePermission ["reports"] (some userA) = GuardOut.resp s m → s = 403) := by
  refine ⟨(c7_permission_guard userAdminEmpty ["reports"]).1 rfl, ?_, ?_⟩
  · intro h
    have := ((c7_permission_guard userA ["reports"]).2.1 (by decide)).mp h
    have hmem := this "reports" (by simp)
    simp [userA] at hmem
  · exact (c7_permission_guard userA ["reports"]).2.2

/-! ## Claim C9 — audit failure never changes the outcome -/

/-- C9: for every environment and request, a failing audit-log write produces
exactly the same middleware result (and the same route-pipeline outcome, for
every guard stack) as a successful one: the audit write is fire-and-forget in
both revisions. -/
theorem c9_audit_fire_and_forget (env : Env) (req : Request) (e : String) :
    authenticate14 env (Except.error e) req = authenticate14 env (Except.ok ()) req ∧
    authenticateMw env (Except.error e) req = authenticateMw env (Except.ok ()) req ∧
    (∀ guards, pipeline14 env (Except.error e) req guards =
      pipeline14 env (Except.ok ()) req guards) ∧
    (∀ guards, pipelineMw env (Except.error e) req guards =
      pipelineMw env (Except.ok ()) req guards) := by
  have h14 : authenticate14 env (Except.error e) req = authenticate14 env (Except.ok ()) req := by
    unfold authenticate14
    cases req.authHeader with
    | none => rfl
    | some h => exact authTok14_audit_eq env _ _ _
  have hmw : authenticateMw env (Except.error e) req = authenticateMw env (Except.ok ()) req := by
    unfold authenticateMw
    cases req.authHeader with
    | none => rfl
    | some h => exact authTokMw_audit_eq env _ _ _
  refine ⟨h14, hmw, fun guards => ?_, fun guards => ?_⟩
  · unfold pipeline14
    rw [h14]
  · unfold pipelineMw
    rw [hmw]

/-! ## Claim C10 — the `Bearer ` handling -/

/-- C10 counterexample: the header value `demo-admin-Bearer token` does not
carry the `Bearer ` scheme word as a prefix, yet `authenticate` does not
process the whole value as the token — `replace` deletes the mid-string
`Bearer ` occurrence, the remainder is the demo sentinel, and the request
authenticates as the demo admin.  Under the claim the processed token would
have been the entire header value, which is not a demo sentinel. -/
theorem c10_counterexample :
    strStartsWith "demo-admin-Bearer token" "Bearer " = false ∧
    jsReplaceFirst "demo-admin-Bearer token" "Bearer " "" = "demo-admin-token" ∧
    (authenticate14 envDev (Except.ok ()) { authHeader := some "demo-admin-Bearer token" }).1 =
      AuthResult.success (demoUser 1000 "demo-admin-token") "demo" "demo-admin-token" ∧
    (authenticate14 envDev (Except.ok ()) { authHeader := some "demo-admin-token" }).1 =
      AuthResult.success (demoUser 1000 "demo-admin-token") "demo" "demo-admin-token" := by
  decide

/-- C10 as amended: `replace('Bearer ', '')` removes the first occurrence of
`Bearer ` anywhere in the header value; when the header value contains no such
occurrence at all, the entire value is processed as the token, and
authentication of a bare token is identical to its `Bearer `-prefixed form in
both revisions. -/
theorem c10_amended (env : Env) (audit : Except String Unit) (h t : String)
    (hh : strIncludes h "Bearer " = false) (ht : strIncludes t "Bearer " = false) :
    authenticate14 env audit { authHeader := some h } = authTok14 env audit h ∧
    authenticate14 env audit { authHeader := some ("Bearer " ++ t) } =
      authenticate14 env audit { authHeader := some t } ∧
    authenticateMw env audit { authHeader := some ("Bearer " ++ t) } =
      authenticateMw env audit { authHeader := some t } := by
  refine ⟨?_, ?_, ?_⟩
  · show authTok14 env audit (jsReplaceFirst h "Bearer " "") = authTok14 env audit h
    rw [jsReplaceFirst_eq_self h "Bearer " "" hh]
  · show authTok14 env audit (jsReplaceFirst ("Bearer " ++ t) "Bearer " "") =
      authTok14 env audit (jsReplaceFirst t "Bearer " "")
    rw [stripBearerOk t, jsReplaceFirst_eq_self t "Bearer " "" ht]
  · show authTokMw env audit (jsReplaceFirst ("Bearer " ++ t) "Bearer " "") =
      authTokMw env audit (jsReplaceFirst t "Bearer " "")
    rw [stripBearerOk t, jsReplaceFirst_eq_self t "Bearer " "" ht]

/-- C10 amended witness at concrete inputs. -/
theorem c10_amended_witness :
    authenticate14 envBase (Except.ok ()) { authHeader := some "abc" } =
      authTok14 envBase (Except.ok ()) "abc" ∧
    authenticateMw envBase (Except.ok ()) { authHeader := some ("Bearer " ++ tokenHS) } =
      authenticateMw envBase (Except.ok ()) { authHeader := some tokenHS } :=
  ⟨(c10_amended envBase (Except.ok ()) "abc" tokenHS (by decide) (by decide)).1,
   (c10_amended envBase (Except.ok ()) "abc" tokenHS (by decide) (by decide)).2.2⟩

/-! ## Claim C1 — no fallback after a RemoteIdentity classification -/

/-- The algorithm loop always makes at least one `jwt.verify` call. -/
theorem tryAlgorithms_calls_pos (env : Env) (token secret a : String) (rest : List String) :
    1 ≤ (tryAlgorithms env token secret (a :: rest)).2.1 := by
  unfold tryAlgorithms
  rcases hv : jwtVerifyModel env token secret (some [a]) with ⟨r, sa⟩
  cases r with
  | ok p => simp
  | error e =>
    rcases tryAlgorithms env token secret rest with ⟨d, n, s⟩
    simp

/-- The trace of the `part_014` JWT branch under a configured secret is the
algorithm loop's trace. -/
theorem jwtBranch14_trace (env : Env) (token secret : String)
    (hsec : env.jwtSecret = some secret) :
    (jwtBranch14 env token).2 =
      { jwtCalls := (tryAlgorithms env token secret ["HS256", "HS512", "RS256"]).2.1,
        sigAttempts := (tryAlgorithms env token secret ["HS256", "HS512", "RS256"]).2.2 } := by
  simp only [jwtBranch14, hsec]
  rcases ht : tryAlgorithms env token secret ["HS256", "HS512", "RS256"] with ⟨d, calls, sas⟩
  cases d with
  | none => rfl
  | some p =>
    cases hf : env.findById (firstTruthyField p ["id", "sub", "userId"]) with
    | none => simp [hf]
    | some u =>
      by_cases hstale : staleToken u p = true
      · simp [hf, hstale]
      · simp [hf, hstale]

set_option maxRecDepth 8192 in
/-- C1 counterexample: `tokenFB` is structurally classified `RemoteIdentity`
and its remote verification fails (`auth/id-token-expired`), yet `part_014`
invokes the local JWT verifier on it — three `jwt.verify` calls, one reaching
a cryptographic signature check — before rejecting.  The claim requires zero
local-verifier calls after any remote failure. -/
theorem c1_counterexample :
    isFirebaseToken14 tokenFB = true ∧
    authenticate14 envBase (Except.ok ()) { authHeader := some ("Bearer " ++ tokenFB) } =
      (AuthResult.response 401 "Invalid token",
        { fbCalls := 1, jwtCalls := 3, sigAttempts := ["RS256"] }) := by
  decide

/-- C1 as amended: after a `RemoteIdentity` classification, `part_014`
rejects without local verification **only** for failures whose code is
`auth/argument-error` or whose message contains `invalid signature`; every
other remote failure (expired, revoked, unavailable) falls through to the
local JWT verifier when a secret is configured.  `auth.js` rejects 401 with
no local fallback for every remote failure. -/
theorem c1_amended (env : Env) (audit : Except String Unit) (token : String) (e : JsError) :
    (env.firebaseAvailable = true → isFirebaseToken14 token = true →
      env.verifyIdToken token = Except.error e →
      (e.code = "auth/argument-error" ∨ strIncludes e.message "invalid signature" = true) →
      authTok14 env audit token =
        (AuthResult.response 401 "Invalid Firebase token - signature verification failed",
          { fbCalls := 1 })) ∧
    (env.firebaseAvailable = true → isFirebaseTokenMw token = true →
      env.verifyIdToken token = Except.error e →
      authTokMw env audit token =
        (AuthResult.response 401 "Invalid Firebase token", { fbCalls := 1 })) ∧
    (env.firebaseAvailable = true → isFirebaseToken14 token = true →
      env.verifyIdToken token = Except.error e →
      e.code ≠ "auth/argument-error" → strIncludes e.message "invalid signature" = false →
      ∀ secret, env.jwtSecret = some secret →
        (authTok14 env audit token).2.fbCalls = 1 ∧
        1 ≤ (authTok14 env audit token).2.jwtCalls) := by
  refine ⟨fun hfb hcls hver hcond => ?_, fun hfb hcls hver => ?_,
    fun hfb hcls hver hc hm secret hsec => ?_⟩
  · have hdemo : ¬(env.nodeEnv = "development" ∧
        (token = "demo-admin-token" ∨ token = "demo-user-token")) :=
      fun hx => isFb14_ne_demo token hcls hx.2
    have hb : firebaseBranch14 env token =
        M1Out.resp 401 "Invalid Firebase token - signature verification failed" := by
      unfold firebaseBranch14
      simp only [hver]
      unfold fbCatch14
      rcases hcond with h | h
      · simp [h]
      · simp [h]
    unfold authTok14 authCore14
    rw [if_neg hdemo, if_pos ⟨hfb, hcls⟩, hb]
  · have hb : firebaseBranchMw env token "Invalid Firebase token" =
        Sum.inl (401, "Invalid Firebase token") := by
      unfold firebaseBranchMw
      simp only [hver]
    unfold authTokMw authCoreMw
    rw [if_pos ⟨hfb, hcls⟩, hb]
  · have hdemo : ¬(env.nodeEnv = "development" ∧
        (token = "demo-admin-token" ∨ token = "demo-user-token")) :=
      fun hx => isFb14_ne_demo token hcls hx.2
    have hb : firebaseBranch14 env token = M1Out.fallthrough := by
      unfold firebaseBranch14
      simp only [hver]
      simp [fbCatch14, hm, decide_eq_false hc]
    have hcore : authCore14 env token =
        (jwtToCore (jwtBranch14 env token).1 token,
          { fbCalls := 1, jwtCalls := (jwtBranch14 env token).2.jwtCalls,
            sigAttempts := (jwtBranch14 env token).2.sigAttempts }) := by
      unfold authCore14
      rw [if_neg hdemo, if_pos ⟨hfb, hcls⟩, hb]
    have htr : (authTok14 env audit token).2 =
        { fbCalls := 1, jwtCalls := (jwtBranch14 env token).2.jwtCalls,
          sigAttempts := (jwtBranch14 env token).2.sigAttempts } := by
      unfold authTok14
      rw [hcore]
      cases jwtToCore (jwtBranch14 env token).1 token <;> rfl
    rw [htr]
    refine ⟨rfl, ?_⟩
    rw [jwtBranch14_trace env token secret hsec]
    exact tryAlgorithms_calls_pos env token secret "HS256" ["HS512", "RS256"]

/-- C1 amended witness: a signature failure rejects immediately in `part_014`
(zero local calls), any failure rejects immediately in `auth.js`, and an
expiry failure with a configured secret reaches the local verifier. -/
theorem c1_amended_witness :
    authTok14 envSigFail (Except.ok ()) tokenFB =
      (AuthResult.response 401 "Invalid Firebase token - signature verification failed",
        { fbCalls := 1 }) ∧
    authTokMw envBase (Except.ok ()) tokenFB =
      (AuthResult.response 401 "Invalid Firebase token", { fbCalls := 1 }) ∧
    ((authTok14 envBase (Except.ok ()) tokenFB).2.fbCalls = 1 ∧
      1 ≤ (authTok14 envBase (Except.ok ()) tokenFB).2.jwtCalls) :=
  ⟨(c1_amended envSigFail (Except.ok ()) tokenFB sigFailErr).1 rfl (by decide) rfl
      (Or.inr (by decide)),
   (c1_amended envBase (Except.ok ()) tokenFB firebaseExpiredErr).2.1 rfl (by decide) rfl,
   (c1_amended envBase (Except.ok ()) tokenFB firebaseExpiredErr).2.2 rfl (by decide) rfl
      (by decide) (by decide) "sec" rfl⟩

/-! ## Claim C2 — duplicate-key handling during provisioning -/

set_option maxRecDepth 8192 in
/-- C2 counterexample: when the Principal insert fails with a Mongo
duplicate-key violation (code 11000), neither revision treats it as success
or re-reads the existing row: `auth.js` rejects 401
`Invalid Firebase token`, and `part_014` falls through to local JWT
verification, which rejects 401 `Invalid token`. -/
theorem c2_counterexample :
    dupKeyErr.code = "11000" ∧
    authenticateMw envDupKey (Except.ok ()) { authHeader := some ("Bearer " ++ tokenFB) } =
      (AuthResult.response 401 "Invalid Firebase token", { fbCalls := 1 }) ∧
    authenticate14 envDupKey (Except.ok ()) { authHeader := some ("Bearer " ++ tokenFB) } =
      (AuthResult.response 401 "Invalid token",
        { fbCalls := 1, jwtCalls := 3, sigAttempts := ["RS256"] }) := by
  decide

/-- Either final outcome of the shared tail: account-disabled or success. -/
theorem finishAndAudit_cases (audit : Except String Unit) (u : User) (ty tok : String) :
    finishAndAudit audit u ty tok = AuthResult.response 403 "Account has been deactivated" ∨
    finishAndAudit audit u ty tok = AuthResult.success u ty tok := by
  unfold finishAndAudit
  by_cases h : u.isActive = false
  · left
    rw [if_pos h]
  · right
    rw [if_neg h]
    cases audit <;> rfl

/-- C2 as amended: a failing Principal insert during provisioning is not
intercepted — the error propagates to the branch's catch: `auth.js` rejects
the request 401; `part_014` (for a non-signature-looking error such as the
duplicate-key violation) falls through to the local JWT verifier, and the
request can never resolve through the `firebase` scheme.  No re-read occurs. -/
theorem c2_amended (env : Env) (audit : Except String Unit) (token : String)
    (dec : FirebaseDecoded) (e : JsError) :
    (env.firebaseAvailable = true → isFirebaseTokenMw token = true →
      env.verifyIdToken token = Except.ok dec →
      env.findByFirebaseUID dec.uid = none →
      env.insertUserResult (newUserDocMw env.freshId dec) = some e →
      authTokMw env audit token =
        (AuthResult.response 401 "Invalid Firebase token", { fbCalls := 1 })) ∧
    (env.firebaseAvailable = true → isFirebaseToken14 token = true →
      env.verifyIdToken token = Except.ok dec →
      env.findByFirebaseUID dec.uid = none →
      env.insertUserResult (newUserDoc14 env.freshId dec) = some e →
      e.code ≠ "auth/argument-error" → strIncludes e.message "invalid signature" = false →
      (∀ secret, env.jwtSecret = some secret →
        (authTok14 env audit token).2.fbCalls = 1 ∧
        1 ≤ (authTok14 env audit token).2.jwtCalls) ∧
      (∀ u ty tok2 tr, authTok14 env audit token = (AuthResult.success u ty tok2, tr) →
        ty = "jwt")) := by
  refine ⟨fun hfb hcls hver hfind hins => ?_, fun hfb hcls hver hfind hins hc hm => ?_⟩
  · have hb : firebaseBranchMw env token "Invalid Firebase token" =
        Sum.inl (401, "Invalid Firebase token") := by
      unfold firebaseBranchMw
      simp only [hver, hfind, hins]
    unfold authTokMw authCoreMw
    rw [if_pos ⟨hfb, hcls⟩, hb]
  · have hdemo : ¬(env.nodeEnv = "development" ∧
        (token = "demo-admin-token" ∨ token = "demo-user-token")) :=
      fun hx => isFb14_ne_demo token hcls hx.2
    have hb : firebaseBranch14 env token = M1Out.fallthrough := by
      unfold firebaseBranch14
      simp only [hver, hfind, hins]
      simp [fbCatch14, hm, decide_eq_false hc]
    have hcore : authCore14 env token =
        (jwtToCore (jwtBranch14 env token).1 token,
          { fbCalls := 1, jwtCalls := (jwtBranch14 env token).2.jwtCalls,
            sigAttempts := (jwtBranch14 env token).2.sigAttempts }) := by
      unfold authCore14
      rw [if_neg hdemo, if_pos ⟨hfb, hcls⟩, hb]
    constructor
    · intro secret hsec
      have htr : (authTok14 env audit token).2 =
          { fbCalls := 1, jwtCalls := (jwtBranch14 env token).2.jwtCalls,
            sigAttempts := (jwtBranch14 env token).2.sigAttempts } := by
        unfold authTok14
        rw [hcore]
        cases jwtToCore (jwtBranch14 env token).1 token <;> rfl
      rw [htr]
      refine ⟨rfl, ?_⟩
      rw [jwtBranch14_trace env token secret hsec]
      exact tryAlgorithms_calls_pos env token secret "HS256" ["HS512", "RS256"]
    · intro u ty tok2 tr h
      unfold authTok14 at h
      rw [hcore] at h
      cases hj : (jwtBranch14 env token).1 with
      | resp s m =>
        rw [hj] at h
        simp [jwtToCore] at h
      | ok w =>
        rw [hj] at h
        simp only [jwtToCore] at h
        rcases finishAndAudit_cases audit w "jwt" token with hfin | hfin <;>
          rw [hfin] at h <;> simp at h
        exact h.1.2.1.symm

set_option maxRecDepth 8192 in
/-- C2 amended witness at the duplicate-key environment. -/
theorem c2_amended_witness :
    authTokMw envDupKey (Except.ok ()) tokenFB =
      (AuthResult.response 401 "Invalid Firebase token", { fbCalls := 1 }) ∧
    ((authTok14 envDupKey (Except.ok ()) tokenFB).2.fbCalls = 1 ∧
      1 ≤ (authTok14 envDupKey (Except.ok ()) tokenFB).2.jwtCalls) :=
  ⟨(c2_amended envDupKey (Except.ok ()) tokenFB decAdmin dupKeyErr).1
      rfl (by decide) rfl rfl rfl,
   ((c2_amended envDupKey (Except.ok ()) tokenFB decAdmin dupKeyErr).2
      rfl (by decide) rfl rfl rfl (by decide) (by decide)).1 "sec" rfl⟩

/-! ## Claim C4 — missing shared secret -/

set_option maxRecDepth 8192 in
/-- C4 counterexample: with no JWT secret configured, a token routed to local
verification is rejected with HTTP 401 (message
`JWT authentication not configured`), not 503, in both revisions; no
signature verification is attempted (the trace is empty). -/
theorem c4_counterexample :
    authenticate14 envNoSecret (Except.ok ()) { authHeader := some ("Bearer " ++ tokenHS) } =
      (AuthResult.response 401 "JWT authentication not configured", {}) ∧
    authenticateMw envNoSecret (Except.ok ()) { authHeader := some ("Bearer " ++ tokenHS) } =
      (AuthResult.response 401 "JWT authentication not configured", {}) ∧
    (authenticate14 envNoSecret (Except.ok ()) { authHeader := some ("Bearer " ++ tokenHS) }).1 ≠
      AuthResult.response 503 "JWT authentication not configured" := by
  decide

/-- C4 as amended: with no JWT secret configured, every token that reaches
the local-JWT branch — whether routed there directly or after a Firebase
fall-through in `part_014` — is rejected with HTTP **401**
`JWT authentication not configured` (not 503), and no signature verification
is attempted (`jwt.verify` is never called and no algorithm is tried). -/
theorem c4_amended (env : Env) (audit : Except String Unit) (token : String)
    (hsec : env.jwtSecret = none)
    (hdemo : ¬(env.nodeEnv = "development" ∧
      (token = "demo-admin-token" ∨ token = "demo-user-token"))) :
    (¬(env.firebaseAvailable = true ∧ isFirebaseToken14 token = true) →
      authTok14 env audit token =
        (AuthResult.response 401 "JWT authentication not configured", {})) ∧
    (∀ e, env.firebaseAvailable = true → isFirebaseToken14 token = true →
      env.verifyIdToken token = Except.error e →
      e.code ≠ "auth/argument-error" → strIncludes e.message "invalid signature" = false →
      authTok14 env audit token =
        (AuthResult.response 401 "JWT authentication not configured", { fbCalls := 1 })) ∧
    (¬(env.firebaseAvailable = true ∧ isFirebaseTokenMw token = true) →
      strStartsWith token "firebase_" = false →
      authTokMw env audit token =
        (AuthResult.response 401 "JWT authentication not configured", {})) := by
  have hjwt : jwtBranch14 env token = (JwtOut.resp 401 "JWT authentication not configured", {}) := by
    unfold jwtBranch14
    rw [hsec]
  have hjwtMw : jwtBranchMw env token =
      (JwtOut.resp 401 "JWT authentication not configured", {}) := by
    unfold jwtBranchMw
    rw [hsec]
  refine ⟨fun hnb => ?_, fun e hfb hcls hver hc hm => ?_, fun hnb hpre => ?_⟩
  · unfold authTok14 authCore14
    rw [if_neg hdemo, if_neg hnb, hjwt]
    rfl
  · have hb : firebaseBranch14 env token = M1Out.fallthrough := by
      unfold firebaseBranch14
      simp only [hver]
      simp [fbCatch14, hm, decide_eq_false hc]
    unfold authTok14 authCore14
    rw [if_neg hdemo, if_pos ⟨hfb, hcls⟩, hb, hjwt]
    rfl
  · unfold authTokMw authCoreMw
    rw [if_neg hnb, if_neg (by simp [hpre]), hjwtMw]
    rfl

/-- C4 amended witness. -/
theorem c4_amended_witness :
    authTok14 envNoSecret (Except.ok ()) tokenHS =
      (AuthResult.response 401 "JWT authentication not configured", {}) ∧
    authTokMw envNoSecret (Except.ok ()) tokenHS =
      (AuthResult.response 401 "JWT authentication not configured", {}) :=
  ⟨(c4_amended envNoSecret (Except.ok ()) tokenHS rfl (by decide)).1 (by decide),
   (c4_amended envNoSecret (Except.ok ()) tokenHS rfl (by decide)).2.2 (by decide) (by decide)⟩

/-! ## Claim C5 — fields of a freshly provisioned principal -/

set_option maxRecDepth 8192 in
/-- C5 counterexample: a verified remote identity carrying a `role: "admin"`
claim is provisioned by `part_014` with `role = "admin"`, not `role = "user"`
— the created principal's role is **not** independent of the token's claims. -/
theorem c5_counterexample :
    (authenticate14 envOkNew (Except.ok ()) { authHeader := some ("Bearer " ++ tokenFB) }).1 =
      AuthResult.success
        { mongoId := "new1", firebaseUID := "fu1", email := some "al@b.c", name := "Al",
          role := "admin", permissions := ["read"], isActive := true, lastLogin := some 1000 }
        "firebase" tokenFB ∧
    decAdmin.role = some "admin" := by
  decide

/-- C5 as amended: a freshly provisioned principal always has
`permissions = {read}` and `active = true`; its role is the verified token's
(truthy) `role` claim when one is present, defaulting to `user`, in
`part_014` — while `auth.js` always assigns `role = user`. -/
theorem c5_amended (env : Env) (audit : Except String Unit) (token : String)
    (dec : FirebaseDecoded)
    (hfb : env.firebaseAvailable = true) (hcls : isFirebaseToken14 token = true)
    (hver : env.verifyIdToken token = Except.ok dec)
    (hfind : env.findByFirebaseUID dec.uid = none)
    (hins : env.insertUserResult (newUserDoc14 env.freshId dec) = none)
    (hsave : env.saveUserResult
      (touchLogin env.now (newUserDoc14 env.freshId dec)) = none) :
    authTok14 env audit token =
      (AuthResult.success (touchLogin env.now (newUserDoc14 env.freshId dec))
        "firebase" token, { fbCalls := 1 }) ∧
    (newUserDoc14 env.freshId dec).permissions = ["read"] ∧
    (newUserDoc14 env.freshId dec).isActive = true ∧
    (newUserDoc14 env.freshId dec).role = jsOrStr dec.role "user" ∧
    (newUserDocMw env.freshId dec).role = "user" := by
  have hdemo : ¬(env.nodeEnv = "development" ∧
      (token = "demo-admin-token" ∨ token = "demo-user-token")) :=
    fun hx => isFb14_ne_demo token hcls hx.2
  refine ⟨?_, rfl, rfl, rfl, rfl⟩
  have hb : firebaseBranch14 env token =
      M1Out.ok (touchLogin env.now (newUserDoc14 env.freshId dec)) dec.uid := by
    unfold firebaseBranch14
    simp only [hver, hfind, hins, hsave]
  unfold authTok14 authCore14
  rw [if_neg hdemo, if_pos ⟨hfb, hcls⟩, hb]
  show (finishAndAudit audit (touchLogin env.now (newUserDoc14 env.freshId dec))
      "firebase" token, ({ fbCalls := 1, jwtCalls := 0, sigAttempts := [] } : Trace)) = _
  have hact : (touchLogin env.now (newUserDoc14 env.freshId dec)).isActive = true := rfl
  unfold finishAndAudit
  rw [if_neg (by simp [hact])]
  cases audit <;> rfl

/-- C5 amended witness. -/
theorem c5_amended_witness :
    authTok14 envOkNew (Except.ok ()) tokenFB =
      (AuthResult.success (touchLogin 1000 (newUserDoc14 "new1" decAdmin))
        "firebase" tokenFB, { fbCalls := 1 }) ∧
    (newUserDoc14 "new1" decAdmin).role = jsOrStr decAdmin.role "user" ∧
    (newUserDocMw "new1" decAdmin).role = "user" :=
  ⟨(c5_amended envOkNew (Except.ok ()) tokenFB decAdmin rfl (by decide) rfl rfl rfl rfl).1,
   (c5_amended envOkNew (Except.ok ()) tokenFB decAdmin rfl (by decide) rfl rfl rfl rfl).2.2.2.1,
   (c5_amended envOkNew (Except.ok ()) tokenFB decAdmin rfl (by decide) rfl rfl rfl rfl).2.2.2.2⟩

/-! ## Claim C3 — malformed bearer strings -/

/-- The verifier-call trace of `auth.js`'s middleware is exactly the trace of
its token processing; the final validation and the audit write add no
verifier calls. -/
theorem authTokMw_trace (env : Env) (audit : Except String Unit) (tok : String) :
    (authTokMw env audit tok).2 = (authCoreMw env tok).2 := by
  unfold authTokMw
  rcases hc : authCoreMw env tok with ⟨co, tr⟩
  cases co <;> rfl

set_option maxRecDepth 8192 in
/-- C3 counterexample: the malformed bearer string `garbage` is classified as
non-Firebase and the remote verifier is never invoked, and the response is
401 — but, contrary to the claim, a verifier *is* invoked on it: the local
JWT verifier runs (three `jwt.verify` calls in `part_014`, one in `auth.js`),
failing structurally before any signature check. -/
theorem c3_counterexample :
    (decodeSegs "garbage").isSome = false ∧
    isFirebaseToken14 "garbage" = false ∧
    authenticate14 envBase (Except.ok ()) { authHeader := some "Bearer garbage" } =
      (AuthResult.response 401 "Invalid token",
        { fbCalls := 0, jwtCalls := 3, sigAttempts := [] }) ∧
    authenticateMw envBase (Except.ok ()) { authHeader := some "Bearer garbage" } =
      (AuthResult.response 401 "Invalid token",
        { fbCalls := 0, jwtCalls := 1, sigAttempts := [] }) := by
  decide

/-- C3 as amended: every bearer string whose structural decode fails (wrong
segment count, undecodable base64, bad JSON) — other than the demo sentinels
— is never classified Firebase; contrary to the original claim a verifier is
still reached.  `part_014` always hands the string to `jwt.verify` (three
calls when a secret is configured, all failing before any signature check)
and responds 401.  `auth.js` does the same with a single `jwt.verify` call
and a 401 — **except** for strings starting with `firebase_`, which its
legacy branch intercepts: with Firebase unconfigured it responds 503
`Firebase authentication is not configured`, and with Firebase configured it
invokes the *remote* verifier once on the stripped remainder and never calls
`jwt.verify`. -/
theorem c3_amended (env : Env) (audit : Except String Unit) (token : String)
    (hmal : decodeSegs token = none)
    (hd1 : token ≠ "demo-admin-token") (hd2 : token ≠ "demo-user-token") :
    isFirebaseToken14 token = false ∧
    isFirebaseTokenMw token = false ∧
    (∃ m, (authTok14 env audit token).1 = AuthResult.response 401 m) ∧
    (authTok14 env audit token).2.fbCalls = 0 ∧
    (authTok14 env audit token).2.sigAttempts = [] ∧
    (∀ secret, env.jwtSecret = some secret → (authTok14 env audit token).2.jwtCalls = 3) ∧
    (strStartsWith token "firebase_" = false →
      (∃ m, (authTokMw env audit token).1 = AuthResult.response 401 m) ∧
      (authTokMw env audit token).2.fbCalls = 0 ∧
      (authTokMw env audit token).2.sigAttempts = [] ∧
      (∀ secret, env.jwtSecret = some secret → (authTokMw env audit token).2.jwtCalls = 1)) ∧
    (strStartsWith token "firebase_" = true → env.firebaseAvailable = false →
      authTokMw env audit token =
        (AuthResult.response 503 "Firebase authentication is not configured", {})) ∧
    (strStartsWith token "firebase_" = true → env.firebaseAvailable = true →
      (authTokMw env audit token).2.fbCalls = 1 ∧
      (authTokMw env audit token).2.jwtCalls = 0 ∧
      (authTokMw env audit token).2.sigAttempts = []) := by
  have hcls14 : isFirebaseToken14 token = false := by
    unfold isFirebaseToken14
    rw [hmal]
  have hclsMw : isFirebaseTokenMw token = false := by
    unfold isFirebaseTokenMw
    rw [hmal]
  have hdemo : ¬(env.nodeEnv = "development" ∧
      (token = "demo-admin-token" ∨ token = "demo-user-token")) := by
    rintro ⟨_, rfl | rfl⟩ <;> simp_all
  have hnb14 : ¬(env.firebaseAvailable = true ∧ isFirebaseToken14 token = true) := by
    rintro ⟨_, hc⟩
    rw [hcls14] at hc
    cases hc
  have hnbMw : ¬(env.firebaseAvailable = true ∧ isFirebaseTokenMw token = true) := by
    rintro ⟨_, hc⟩
    rw [hclsMw] at hc
    cases hc
  have hpref503 : strStartsWith token "firebase_" = true → env.firebaseAvailable = false →
      authTokMw env audit token =
        (AuthResult.response 503 "Firebase authentication is not configured", {}) := by
    intro hpre hfa
    unfold authTokMw authCoreMw
    rw [if_neg hnbMw, if_pos hpre, if_pos (by simp [hfa])]
  have hpref1 : strStartsWith token "firebase_" = true → env.firebaseAvailable = true →
      (authTokMw env audit token).2.fbCalls = 1 ∧
      (authTokMw env audit token).2.jwtCalls = 0 ∧
      (authTokMw env audit token).2.sigAttempts = [] := by
    intro hpre hfa
    have htr : (authCoreMw env token).2 = ({ fbCalls := 1 } : Trace) := by
      unfold authCoreMw
      rw [if_neg hnbMw, if_pos hpre, if_neg (by simp [hfa])]
      cases hb : firebaseBranchMw env (jsReplaceFirst token "firebase_" "") "Invalid token" with
      | inl p =>
        rcases p with ⟨s, m⟩
        rfl
      | inr w => rfl
    rw [authTokMw_trace env audit token, htr]
    exact ⟨rfl, rfl, rfl⟩
  have h14 : ∀ jb, jwtBranch14 env token = jb →
      authTok14 env audit token = (match jb.1 with
        | JwtOut.resp s m => AuthResult.response s m
        | JwtOut.ok u => finishAndAudit audit u "jwt" token, jb.2) := by
    intro jb hjb
    unfold authTok14 authCore14
    rw [if_neg hdemo, if_neg hnb14, hjb]
    cases hr : jb.1 <;> simp [jwtToCore, hr]
  rcases hs : env.jwtSecret with _ | secret
  · have hjb : jwtBranch14 env token =
        (JwtOut.resp 401 "JWT authentication not configured", {}) := by
      unfold jwtBranch14
      rw [hs]
    have ha := h14 _ hjb
    refine ⟨hcls14, hclsMw, ⟨_, by rw [ha]⟩, by rw [ha], by rw [ha],
      fun secret hsec => Option.noConfusion hsec, fun hpre => ?_, hpref503, hpref1⟩
    have hjbMw : jwtBranchMw env token =
        (JwtOut.resp 401 "JWT authentication not configured", {}) := by
      unfold jwtBranchMw
      rw [hs]
    have hmw : authTokMw env audit token =
        (AuthResult.response 401 "JWT authentication not configured", {}) := by
      unfold authTokMw authCoreMw
      rw [if_neg hnbMw, if_neg (by simp [hpre]), hjbMw]
      rfl
    exact ⟨⟨_, by rw [hmw]⟩, by rw [hmw], by rw [hmw],
      fun secret hsec => Option.noConfusion hsec⟩
  · have htry := tryAlgorithms_malformed env token secret ["HS256", "HS512", "RS256"] hmal
    have hjb : jwtBranch14 env token =
        (JwtOut.resp 401 "Invalid token", { jwtCalls := 3, sigAttempts := [] }) := by
      simp only [jwtBranch14, hs]
      rw [htry]
      rfl
    have ha := h14 _ hjb
    obtain ⟨e, he⟩ := jwtVerifyModel_malformed env token secret none hmal
    refine ⟨hcls14, hclsMw, ⟨_, by rw [ha]⟩, by rw [ha], by rw [ha],
      fun s2 hsec => by rw [ha], fun hpre => ?_, hpref503, hpref1⟩
    have hjbMw : jwtBranchMw env token =
        (JwtOut.resp 401 "Invalid token", { jwtCalls := 1, sigAttempts := [] }) := by
      simp only [jwtBranchMw, hs]
      rw [he]
    have hmw : authTokMw env audit token =
        (AuthResult.response 401 "Invalid token", { jwtCalls := 1, sigAttempts := [] }) := by
      unfold authTokMw authCoreMw
      rw [if_neg hnbMw, if_neg (by simp [hpre]), hjbMw]
      rfl
    exact ⟨⟨_, by rw [hmw]⟩, by rw [hmw], by rw [hmw], fun s2 hsec => by rw [hmw]⟩

set_option maxRecDepth 8192 in
/-- C3 amended witness: the one-segment bearer strings `garbage` and
`firebase_garbage`, the latter exercising both sides of `auth.js`'s legacy
prefix branch. -/
theorem c3_amended_witness :
    isFirebaseToken14 "garbage" = false ∧
    (∃ m, (authTok14 envBase (Except.ok ()) "garbage").1 = AuthResult.response 401 m) ∧
    (authTok14 envBase (Except.ok ()) "garbage").2.fbCalls = 0 ∧
    (authTok14 envBase (Except.ok ()) "garbage").2.jwtCalls = 3 ∧
    authTokMw envNoSecret (Except.ok ()) "firebase_garbage" =
      (AuthResult.response 503 "Firebase authentication is not configured", {}) ∧
    ((authTokMw envBase (Except.ok ()) "firebase_garbage").2.fbCalls = 1 ∧
      (authTokMw envBase (Except.ok ()) "firebase_garbage").2.jwtCalls = 0) :=
  have h := c3_amended envBase (Except.ok ()) "garbage" rfl (by decide) (by decide)
  have h2 := c3_amended envNoSecret (Except.ok ()) "firebase_garbage" rfl (by decide) (by decide)
  have h3 := c3_amended envBase (Except.ok ()) "firebase_garbage" rfl (by decide) (by decide)
  ⟨h.1, h.2.2.1, h.2.2.2.1, h.2.2.2.2.2.1 "sec" rfl,
   h2.2.2.2.2.2.2.2.1 (by decide) rfl,
   ⟨(h3.2.2.2.2.2.2.2.2 (by decide) rfl).1, (h3.2.2.2.2.2.2.2.2 (by decide) rfl).2.1⟩⟩

/-! ## Claim C6 — algorithm cycling in local verification -/

set_option maxRecDepth 8192 in
/-- C6 counterexample: `auth.js` does not implement the claimed fixed-priority
cycling.  A token whose header algorithm is HS384 (not in the claimed
priority list) and whose signature only verifies under HS384 is *accepted*
by `auth.js` with a single `jwt.verify` call whose only signature attempt is
HS384 — whereas the claimed procedure (tried HS256, HS512, RS256 against the
same oracle) finds no successful algorithm and would reject as malformed. -/
theorem c6_counterexample :
    (authenticateMw envHS384 (Except.ok ()) { authHeader := some ("Bearer " ++ tokenHS384) }).1 =
      AuthResult.success userA "jwt" tokenHS384 ∧
    (authenticateMw envHS384 (Except.ok ()) { authHeader := some ("Bearer " ++ tokenHS384) }).2 =
      { fbCalls := 0, jwtCalls := 1, sigAttempts := ["HS384"] } ∧
    (tryAlgorithms envHS384 tokenHS384 "sec" ["HS256", "HS512", "RS256"]).1.isSome = false := by
  decide

/-- C6 as amended: `part_014` does implement the claimed cycling — it calls
`jwt.verify` once per algorithm in the fixed order HS256, HS512, RS256, stops
at the first success, and rejects 401 `Invalid token` when all three fail —
while `auth.js` performs exactly one `jwt.verify` call with the library
default (no fixed algorithm list). -/
theorem c6_amended (env : Env) (token secret : String) (p : Json)
    (hsec : env.jwtSecret = some secret) :
    ((jwtVerifyModel env token secret (some ["HS256"])).1 = Except.ok p →
      (tryAlgorithms env token secret ["HS256", "HS512", "RS256"]).1 = some p ∧
      (tryAlgorithms env token secret ["HS256", "HS512", "RS256"]).2.1 = 1) ∧
    (∀ e1, (jwtVerifyModel env token secret (some ["HS256"])).1 = Except.error e1 →
      (jwtVerifyModel env token secret (some ["HS512"])).1 = Except.ok p →
      (tryAlgorithms env token secret ["HS256", "HS512", "RS256"]).1 = some p ∧
      (tryAlgorithms env token secret ["HS256", "HS512", "RS256"]).2.1 = 2) ∧
    (∀ e1 e2, (jwtVerifyModel env token secret (some ["HS256"])).1 = Except.error e1 →
      (jwtVerifyModel env token secret (some ["HS512"])).1 = Except.error e2 →
      (jwtVerifyModel env token secret (some ["RS256"])).1 = Except.ok p →
      (tryAlgorithms env token secret ["HS256", "HS512", "RS256"]).1 = some p ∧
      (tryAlgorithms env token secret ["HS256", "HS512", "RS256"]).2.1 = 3) ∧
    (∀ e1 e2 e3, (jwtVerifyModel env token secret (some ["HS256"])).1 = Except.error e1 →
      (jwtVerifyModel env token secret (some ["HS512"])).1 = Except.error e2 →
      (jwtVerifyModel env token secret (some ["RS256"])).1 = Except.error e3 →
      (tryAlgorithms env token secret ["HS256", "HS512", "RS256"]).1 = none ∧
      (tryAlgorithms env token secret ["HS256", "HS512", "RS256"]).2.1 = 3 ∧
      (jwtBranch14 env token).1 = JwtOut.resp 401 "Invalid token") ∧
    (jwtBranchMw env token).2.jwtCalls = 1 := by
  have hstep : ∀ a rest, tryAlgorithms env token secret (a :: rest) =
      match jwtVerifyModel env token secret (some [a]) with
      | (Except.ok q, sa) => (some q, 1, sa)
      | (Except.error _, sa) =>
        ((tryAlgorithms env token secret rest).1,
          (tryAlgorithms env token secret rest).2.1 + 1,
          sa ++ (tryAlgorithms env token secret rest).2.2) := by
    intro a rest
    rcases hv : jwtVerifyModel env token secret (some [a]) with ⟨r, sa⟩
    rcases ht : tryAlgorithms env token secret rest with ⟨d, n, s⟩
    unfold tryAlgorithms
    rw [hv, ht]
  refine ⟨fun h1 => ?_, fun e1 h1 h2 => ?_, fun e1 e2 h1 h2 h3 => ?_,
    fun e1 e2 e3 h1 h2 h3 => ?_, ?_⟩
  · rcases hv : jwtVerifyModel env token secret (some ["HS256"]) with ⟨r, sa⟩
    rw [hv] at h1
    subst h1
    rw [hstep, hv]
    exact ⟨rfl, rfl⟩
  · rcases hv1 : jwtVerifyModel env token secret (some ["HS256"]) with ⟨r1, sa1⟩
    rcases hv2 : jwtVerifyModel env token secret (some ["HS512"]) with ⟨r2, sa2⟩
    rw [hv1] at h1
    rw [hv2] at h2
    subst h1
    subst h2
    rw [hstep, hv1]
    simp only
    rw [hstep, hv2]
    exact ⟨rfl, rfl⟩
  · rcases hv1 : jwtVerifyModel env token secret (some ["HS256"]) with ⟨r1, sa1⟩
    rcases hv2 : jwtVerifyModel env token secret (some ["HS512"]) with ⟨r2, sa2⟩
    rcases hv3 : jwtVerifyModel env token secret (some ["RS256"]) with ⟨r3, sa3⟩
    rw [hv1] at h1
    rw [hv2] at h2
    rw [hv3] at h3
    subst h1
    subst h2
    subst h3
    rw [hstep, hv1]
    simp only
    rw [hstep, hv2]
    simp only
    rw [hstep, hv3]
    exact ⟨rfl, rfl⟩
  · rcases hv1 : jwtVerifyModel env token secret (some ["HS256"]) with ⟨r1, sa1⟩
    rcases hv2 : jwtVerifyModel env token secret (some ["HS512"]) with ⟨r2, sa2⟩
    rcases hv3 : jwtVerifyModel env token secret (some ["RS256"]) with ⟨r3, sa3⟩
    rw [hv1] at h1
    rw [hv2] at h2
    rw [hv3] at h3
    subst h1
    subst h2
    subst h3
    have htry : (tryAlgorithms env token secret ["HS256", "HS512", "RS256"]).1 = none ∧
        (tryAlgorithms env token secret ["HS256", "HS512", "RS256"]).2.1 = 3 := by
      rw [hstep, hv1]
      simp only
      rw [hstep, hv2]
      simp only
      rw [hstep, hv3]
      simp [tryAlgorithms]
    refine ⟨htry.1, htry.2, ?_⟩
    simp only [jwtBranch14, hsec]
    rcases ht : tryAlgorithms env token secret ["HS256", "HS512", "RS256"] with ⟨d, calls, sas⟩
    rw [ht] at htry
    obtain ⟨hd, _⟩ := htry
    simp only at hd
    subst hd
    rfl
  · simp only [jwtBranchMw, hsec]
    rcases hv : jwtVerifyModel env token secret none with ⟨r, sa⟩
    cases r with
    | error e => rfl
    | ok q =>
      cases hf : env.findById (jsonGet q "id") with
      | none => simp [hf]
      | some u =>
        by_cases hstale : staleToken u q = true
        · simp [hf, hstale]
        · simp [hf, hstale]

/-- C6 amended witness: a token whose header algorithm is HS512 fails the
HS256 attempt (algorithm not allowed), succeeds at HS512, and the loop stops
after two calls. -/
theorem c6_amended_witness :
    (tryAlgorithms envHS512 tokenHS512 "sec" ["HS256", "HS512", "RS256"]).1 =
      some (Json.obj [("id", Json.str "u1"), ("iat", Json.num 1)]) ∧
    (tryAlgorithms envHS512 tokenHS512 "sec" ["HS256", "HS512", "RS256"]).2.1 = 2 ∧
    (jwtBranchMw envHS512 tokenHS512).2.jwtCalls = 1 :=
  have h := c6_amended envHS512 tokenHS512 "sec"
    (Json.obj [("id", Json.str "u1"), ("iat", Json.num 1)]) rfl
  ⟨(h.2.1 (mkJwtErr "JsonWebTokenError" "invalid algorithm") rfl rfl).1,
   (h.2.1 (mkJwtErr "JsonWebTokenError" "invalid algorithm") rfl rfl).2,
   h.2.2.2.2⟩

/-! ## Claim C8 — inactive principals are rejected before any guard -/

/-- The demo short-circuit is the only source of a `CoreOut.demo` outcome in
`part_014`, and it carries the demo user object. -/
theorem authCore14_demo (env : Env) (tok : String) (u : User) (t : String) (tr : Trace)
    (h : authCore14 env tok = (CoreOut.demo u t, tr)) : u = demoUser env.now tok := by
  unfold authCore14 at h
  by_cases hd : env.nodeEnv = "development" ∧
      (tok = "demo-admin-token" ∨ tok = "demo-user-token")
  · rw [if_pos hd] at h
    simp at h
    exact h.1.1.symm
  · rw [if_neg hd] at h
    by_cases hf : env.firebaseAvailable = true ∧ isFirebaseToken14 tok = true
    · rw [if_pos hf] at h
      cases hb : firebaseBranch14 env tok with
      | resp s m =>
        rw [hb] at h
        simp at h
      | fallthrough =>
        rw [hb] at h
        rcases hj : jwtBranch14 env tok with ⟨r, trj⟩
        rw [hj] at h
        cases r <;> simp [jwtToCore] at h
      | ok w uid =>
        rw [hb] at h
        simp at h
    · rw [if_neg hf] at h
      rcases hj : jwtBranch14 env tok with ⟨r, trj⟩
      rw [hj] at h
      cases r <;> simp [jwtToCore] at h

/-- `auth.js` has no demo short-circuit: no `CoreOut.demo` outcome exists. -/
theorem authCoreMw_no_demo (env : Env) (tok : String) (u : User) (t : String) (tr : Trace)
    (h : authCoreMw env tok = (CoreOut.demo u t, tr)) : False := by
  unfold authCoreMw at h
  by_cases hf : env.firebaseAvailable = true ∧ isFirebaseTokenMw tok = true
  · rw [if_pos hf] at h
    cases hb : firebaseBranchMw env tok "Invalid Firebase token" with
    | inl p =>
      rcases p with ⟨s, m⟩
      rw [hb] at h
      simp at h
    | inr w =>
      rw [hb] at h
      simp at h
  · rw [if_neg hf] at h
    by_cases hp : strStartsWith tok "firebase_" = true
    · rw [if_pos hp] at h
      cases hfa : env.firebaseAvailable with
      | false =>
        simp [hfa] at h
      | true =>
        simp only [hfa] at h
        cases hb : firebaseBranchMw env (jsReplaceFirst tok "firebase_" "") "Invalid token" with
        | inl p =>
          rcases p with ⟨s, m⟩
          rw [hb] at h
          simp at h
        | inr w =>
          rw [hb] at h
          simp at h
    · rw [if_neg hp] at h
      rcases hj : jwtBranchMw env tok with ⟨r, trj⟩
      rw [hj] at h
      cases r <;> simp [jwtToCore] at h

/-- Every `next()` of `part_014` carries an active user. -/
theorem authTok14_success_active (env : Env) (audit : Except String Unit) (tok : String)
    (u : User) (ty t : String) (tr : Trace)
    (h : authTok14 env audit tok = (AuthResult.success u ty t, tr)) : u.isActive = true := by
  unfold authTok14 at h
  rcases hc : authCore14 env tok with ⟨co, tr2⟩
  rw [hc] at h
  cases co with
  | resp s m => simp at h
  | demo u2 t2 =>
    have hu : u2 = demoUser env.now tok := authCore14_demo env tok u2 t2 tr2 hc
    simp at h
    rw [← h.1.1, hu]
    rfl
  | main u2 ty2 t2 =>
    simp at h
    obtain ⟨hequ, hact⟩ := finishAndAudit_success audit u2 ty2 t2 u ty t h.1
    rw [hequ]
    exact hact

/-- Every `next()` of `auth.js` carries an active user. -/
theorem authTokMw_success_active (env : Env) (audit : Except String Unit) (tok : String)
    (u : User) (ty t : String) (tr : Trace)
    (h : authTokMw env audit tok = (AuthResult.success u ty t, tr)) : u.isActive = true := by
  unfold authTokMw at h
  rcases hc : authCoreMw env tok with ⟨co, tr2⟩
  rw [hc] at h
  cases co with
  | resp s m => simp at h
  | demo u2 t2 => exact absurd hc (fun hx => authCoreMw_no_demo env tok u2 t2 tr2 hx)
  | main u2 ty2 t2 =>
    simp at h
    obtain ⟨hequ, hact⟩ := finishAndAudit_success audit u2 ty2 t2 u ty t h.1
    rw [hequ]
    exact hact

/-- C8: in both revisions, a request can only reach the handler with an
active principal, and a resolved principal with `active = false` is rejected
403 `Account has been deactivated` with the guard stack never run — whatever
guards the route declares and whatever the principal's role and permissions. -/
theorem c8_account_disabled :
    (∀ env audit req u ty t tr,
      authenticate14 env audit req = (AuthResult.success u ty t, tr) → u.isActive = true) ∧
    (∀ env audit req u ty t tr,
      authenticateMw env audit req = (AuthResult.success u ty t, tr) → u.isActive = true) ∧
    (∀ env audit token dec w,
      env.firebaseAvailable = true → isFirebaseToken14 token = true →
      env.verifyIdToken token = Except.ok dec →
      env.findByFirebaseUID dec.uid = some w →
      env.saveUserResult (touchLogin env.now w) = none →
      w.isActive = false →
      authTok14 env audit token =
        (AuthResult.response 403 "Account has been deactivated", { fbCalls := 1 }) ∧
      (∀ guards, pipeline14 env audit { authHeader := some ("Bearer " ++ token) } guards =
        PipeOut.resp 403 "Account has been deactivated")) ∧
    (∀ env audit token dec w,
      env.firebaseAvailable = true → isFirebaseTokenMw token = true →
      env.verifyIdToken token = Except.ok dec →
      env.findByFirebaseUID dec.uid = some w →
      env.saveUserResult (touchLogin env.now w) = none →
      w.isActive = false →
      authTokMw env audit token =
        (AuthResult.response 403 "Account has been deactivated", { fbCalls := 1 }) ∧
      (∀ guards, pipelineMw env audit { authHeader := some ("Bearer " ++ token) } guards =
        PipeOut.resp 403 "Account has been deactivated")) ∧
    (∀ audit u ty tok, u.isActive = false →
      finishAndAudit audit u ty tok =
        AuthResult.response 403 "Account has been deactivated") := by
  refine ⟨?_, ?_, ?_, ?_, fun audit u ty tok hw => by
    unfold finishAndAudit
    rw [if_pos hw]⟩
  · intro env audit req u ty t tr h
    unfold authenticate14 at h
    cases hh : req.authHeader with
    | none =>
      rw [hh] at h
      simp at h
    | some hd =>
      rw [hh] at h
      exact authTok14_success_active env audit _ u ty t tr h
  · intro env audit req u ty t tr h
    unfold authenticateMw at h
    cases hh : req.authHeader with
    | none =>
      rw [hh] at h
      simp at h
    | some hd =>
      rw [hh] at h
      exact authTokMw_success_active env audit _ u ty t tr h
  · intro env audit token dec w hfb hcls hver hfind hsave hw
    have hdemo : ¬(env.nodeEnv = "development" ∧
        (token = "demo-admin-token" ∨ token = "demo-user-token")) :=
      fun hx => isFb14_ne_demo token hcls hx.2
    have hb : firebaseBranch14 env token = M1Out.ok (touchLogin env.now w) dec.uid := by
      unfold firebaseBranch14
      simp only [hver, hfind, hsave]
    have hfin : finishAndAudit audit (touchLogin env.now w) "firebase" token =
        AuthResult.response 403 "Account has been deactivated" := by
      unfold finishAndAudit
      rw [if_pos (show (touchLogin env.now w).isActive = false from hw)]
    have hmain : authTok14 env audit token =
        (AuthResult.response 403 "Account has been deactivated", { fbCalls := 1 }) := by
      unfold authTok14 authCore14
      rw [if_neg hdemo, if_pos ⟨hfb, hcls⟩, hb]
      show (finishAndAudit audit (touchLogin env.now w) "firebase" token,
        ({ fbCalls := 1, jwtCalls := 0, sigAttempts := [] } : Trace)) = _
      rw [hfin]
    refine ⟨hmain, fun guards => ?_⟩
    show (match (authTok14 env audit token).1 with
          | AuthResult.response s m => PipeOut.resp s m
          | AuthResult.success u2 _ _ => runGuards u2 guards) = _
    rw [hmain]
  · intro env audit token dec w hfb hcls hver hfind hsave hw
    have hb : firebaseBranchMw env token "Invalid Firebase token" =
        Sum.inr (touchLogin env.now w) := by
      unfold firebaseBranchMw
      simp only [hver, hfind, hsave]
    have hfin : finishAndAudit audit (touchLogin env.now w) "firebase" token =
        AuthResult.response 403 "Account has been deactivated" := by
      unfold finishAndAudit
      rw [if_pos (show (touchLogin env.now w).isActive = false from hw)]
    have hmain : authTokMw env audit token =
        (AuthResult.response 403 "Account has been deactivated", { fbCalls := 1 }) := by
      unfold authTokMw authCoreMw
      rw [if_pos ⟨hfb, hcls⟩, hb]
      show (finishAndAudit audit (touchLogin env.now w) "firebase" token,
        ({ fbCalls := 1, jwtCalls := 0, sigAttempts := [] } : Trace)) = _
      rw [hfin]
    refine ⟨hmain, fun guards => ?_⟩
    show (match (authTokMw env audit token).1 with
          | AuthResult.response s m => PipeOut.resp s m
          | AuthResult.success u2 _ _ => runGuards u2 guards) = _
    rw [hmain]

set_option maxRecDepth 8192 in
/-- C8 witness: a concrete successful request carries an active user, and a
deactivated admin is rejected 403 with the permission guard never run. -/
theorem c8_account_disabled_witness :
    (touchLogin 1000 (newUserDoc14 "new1" decAdmin)).isActive = true ∧
    authTok14 envInactive (Except.ok ()) tokenFB =
      (AuthResult.response 403 "Account has been deactivated", { fbCalls := 1 }) ∧
    pipeline14 envInactive (Except.ok ()) { authHeader := some ("Bearer " ++ tokenFB) }
      [Guard.permGuard ["reports"]] = PipeOut.resp 403 "Account has been deactivated" :=
  ⟨c8_account_disabled.1 envOkNew (Except.ok ())
      { authHeader := some ("Bearer " ++ tokenFB) }
      (touchLogin 1000 (newUserDoc14 "new1" decAdmin)) "firebase" tokenFB
      { fbCalls := 1 } (by decide),
   (c8_account_disabled.2.2.1 envInactive (Except.ok ()) tokenFB decAdmin userInactiveAdmin
      rfl (by decide) rfl rfl rfl rfl).1,
   (c8_account_disabled.2.2.1 envInactive (Except.ok ()) tokenFB decAdmin userInactiveAdmin
      rfl (by decide) rfl rfl rfl rfl).2 [Guard.permGuard ["reports"]]⟩

end AssetAuth
